import Mathlib

/-!
Verification of the `gmail-clean.py` bulk-deletion script.

The script has three stages: OAuth authentication (`authenticate_gmail`),
query-string construction from the CLI filter options, and a batched
deletion loop (`delete_messages_by_filters`), wired together by `main`.

The pure parts (query building, date arithmetic, batching) are embedded as
executable Lean functions translated line by line from the Python source.
The effectful parts (authentication, listing, deletion, prompts) are
embedded as trace-producing functions over an explicit `World` record that
captures the external state the script consults (token file, credentials
file, user confirmation input, listing result).
-/

/-! ## Calendar arithmetic (model of `datetime.date` ± `datetime.timedelta(days=1)`) -/

/-- Proleptic Gregorian leap-year rule used by `datetime.date`. -/
def isLeapYear (y : Nat) : Bool :=
  y % 4 == 0 && (y % 100 != 0 || y % 400 == 0)

/-- Number of days in month `m` (1–12) of year `y`, as in `datetime`. -/
def daysInMonth (y m : Nat) : Nat :=
  if m == 2 then (if isLeapYear y then 29 else 28)
  else if m == 4 || m == 6 || m == 9 || m == 11 then 30
  else 31

/-- A calendar date; mirrors `datetime.date(year, month, day)`. -/
structure Date where
  year : Nat
  month : Nat
  day : Nat
  deriving DecidableEq, Repr

/-- `d - datetime.timedelta(days=1)`: the previous calendar day. -/
def Date.pred (d : Date) : Date :=
  if 1 < d.day then ⟨d.year, d.month, d.day - 1⟩
  else if 1 < d.month then ⟨d.year, d.month - 1, daysInMonth d.year (d.month - 1)⟩
  else ⟨d.year - 1, 12, 31⟩

/-- `d + datetime.timedelta(days=1)`: the next calendar day. -/
def Date.succ (d : Date) : Date :=
  if d.day < daysInMonth d.year d.month then ⟨d.year, d.month, d.day + 1⟩
  else if d.month < 12 then ⟨d.year, d.month + 1, 1⟩
  else ⟨d.year + 1, 1, 1⟩

/-- Zero-pad a number to two digits, as `strftime` does for `%m` and `%d`. -/
def pad2 (n : Nat) : String :=
  if n < 10 then "0" ++ toString n else toString n

/-- Zero-pad a number to four digits, as `strftime` does for `%Y`. -/
def pad4 (n : Nat) : String :=
  if n < 10 then "000" ++ toString n
  else if n < 100 then "00" ++ toString n
  else if n < 1000 then "0" ++ toString n
  else toString n

/-- `date.strftime("%Y/%m/%d")`. -/
def formatDate (d : Date) : String :=
  pad4 d.year ++ "/" ++ pad2 d.month ++ "/" ++ pad2 d.day

/-! ## Query builder (lines 37–64 of `gmail-clean.py`)

The CLI passes `args.year` / `args.month` as `None` or an `int`
(`--month` is constrained by argparse to 1–12); they are modelled as
`Option Nat`.  Python's truthiness test `if year and month:` treats both
`None` and `0` as false. -/

/-- Python truthiness of an optional integer: `None` and `0` are falsy. -/
def pyTruthy : Option Nat → Bool
  | none => false
  | some n => n != 0

/-- Python truthiness of an optional string: `None` and `""` are falsy. -/
def pyTruthyStr : Option String → Bool
  | none => false
  | some s => s != ""

/-- Lines 40–52: the time-filter part of `query_parts`.

If both year and month are (truthily) given: `start_date = date(year, month, 1)`;
`end_date` is the last day of the month, computed as the first day of the
next month minus one day (December wraps to January of `year + 1`); the
clauses are `after:{start}` and `before:{end_date + 1 day}` in
`%Y/%m/%d` format.  If only the year is given: `after:{year}/01/01` and
`before:{year+1}/01/01` via plain f-strings.  Otherwise no time clause. -/
def timeClauses (year month : Option Nat) : List String :=
  if pyTruthy year && pyTruthy month then
    let y := year.getD 0
    let m := month.getD 0
    let start_date : Date := ⟨y, m, 1⟩
    let end_date : Date :=
      if m == 12 then Date.pred ⟨y + 1, 1, 1⟩ else Date.pred ⟨y, m + 1, 1⟩
    ["after:" ++ formatDate start_date, "before:" ++ formatDate end_date.succ]
  else if pyTruthy year then
    let y := year.getD 0
    ["after:" ++ toString y ++ "/01/01", "before:" ++ toString (y + 1) ++ "/01/01"]
  else []

/-- Python's `str.lower()`, modelled character by character (the ASCII
case mapping; label names and the "inbox" sentinel are ASCII). -/
def strLower (s : String) : String :=
  ⟨s.data.map Char.toLower⟩

/-- Lines 55–58: `in:inbox` when `location.lower() == "inbox"`, else
`label:{location}` with the location string kept verbatim. -/
def locationClause (location : String) : String :=
  if strLower location == "inbox" then "in:inbox" else "label:" ++ location

/-- Lines 61–62: `from:{sender}` when the sender string is truthy. -/
def senderClauses (sender : Option String) : List String :=
  if pyTruthyStr sender then ["from:" ++ sender.getD ""] else []

/-- Line 64: `query = " ".join(query_parts)`, with `query_parts` built by
appending the time clauses, then the location clause, then the sender
clause, in source order. -/
def buildQuery (year month : Option Nat) (location : String) (sender : Option String) : String :=
  String.intercalate " " (timeClauses year month ++ [locationClause location] ++ senderClauses sender)

/-! ## Helper lemmas on the calendar model -/

lemma pred_firstOfNextMonth (y m : Nat) (hm : 1 ≤ m) :
    Date.pred ⟨y, m + 1, 1⟩ = ⟨y, m, daysInMonth y m⟩ := by
  have h1 : ¬(1 < (1 : Nat)) := by omega
  have h2 : 1 < m + 1 := by omega
  simp [Date.pred, h1, h2]

lemma succ_lastOfMonth (y m : Nat) (hm2 : m < 12) :
    Date.succ ⟨y, m, daysInMonth y m⟩ = ⟨y, m + 1, 1⟩ := by
  simp [Date.succ, hm2]

lemma pred_jan1 (y : Nat) : Date.pred ⟨y + 1, 1, 1⟩ = ⟨y, 12, 31⟩ := by
  simp [Date.pred]

lemma succ_dec31 (y : Nat) : Date.succ ⟨y, 12, 31⟩ = ⟨y + 1, 1, 1⟩ := by
  simp [Date.succ, daysInMonth]

/-- C1: month-scoped time clause. -/
theorem month_time_clause (y m : Nat) (hy : 1 ≤ y) (hm1 : 1 ≤ m) (hm2 : m ≤ 12) :
    timeClauses (some y) (some m) =
      ["after:" ++ formatDate ⟨y, m, 1⟩,
       "before:" ++ formatDate (if m = 12 then ⟨y + 1, 1, 1⟩ else ⟨y, m + 1, 1⟩)] := by
  have hty : pyTruthy (some y) = true := by
    simp [pyTruthy]; omega
  have htm : pyTruthy (some m) = true := by
    simp [pyTruthy]; omega
  by_cases h12 : m = 12
  · subst h12
    simp [timeClauses, hty, htm, pred_jan1, succ_dec31]
  · have hblt : (m == 12) = false := by simp [h12]
    have h2 : Date.pred ⟨y, m + 1, 1⟩ = ⟨y, m, daysInMonth y m⟩ :=
      pred_firstOfNextMonth y m hm1
    have h3 : Date.succ ⟨y, m, daysInMonth y m⟩ = ⟨y, m + 1, 1⟩ :=
      succ_lastOfMonth y m (by omega)
    simp [timeClauses, hty, htm, h12, hblt, h2, h3]

/-! ## Batching (lines 87–93 of `gmail-clean.py`)

`batch_size = 999`; the loop `for i in range(0, len(messages), batch_size)`
takes the slice `messages[i : i + batch_size]` at each step.  A message is
modelled by its id string.  `range(0, n, step)` has `(n + step - 1) / step`
elements `0, step, 2*step, …`, and the slice `xs[i : i + bs]` is
`(xs.drop i).take bs`. -/

/-- Line 87: `batch_size = 999`. -/
def batch_size : Nat := 999

/-- Lines 89–90: the list of batches produced by the slicing loop. -/
def batches (msgs : List String) (bs : Nat) : List (List String) :=
  (List.range' 0 ((msgs.length + bs - 1) / bs) bs).map (fun i => (msgs.drop i).take bs)

lemma map_range'_add {α : Type} (g : Nat → α) (s k step : Nat) :
    (List.range' (s + step) k step).map g
      = (List.range' s k step).map (fun i => g (i + step)) := by
  induction k generalizing s with
  | zero => rfl
  | succ k ih =>
    rw [List.range'_succ, List.range'_succ, List.map_cons, List.map_cons, ih (s + step)]

lemma batches_nil (bs : Nat) : batches [] bs = [] := by
  have h0 : (([] : List String).length + bs - 1) / bs = 0 := by
    rcases Nat.eq_zero_or_pos bs with h | h
    · subst h; rfl
    · simp only [List.length_nil]
      exact Nat.div_eq_of_lt (by omega)
  unfold batches
  rw [h0]
  rfl

lemma batches_cons (msgs : List String) (bs : Nat) (hbs : 0 < bs) (h : msgs ≠ []) :
    batches msgs bs = msgs.take bs :: batches (msgs.drop bs) bs := by
  have hlen : 1 ≤ msgs.length := List.length_pos.mpr h
  have h1 : (msgs.length + bs - 1) / bs = (msgs.length - 1) / bs + 1 := by
    have e : msgs.length + bs - 1 = (msgs.length - 1) + bs := by omega
    rw [e, Nat.add_div_right _ hbs]
  have h3 : ((msgs.drop bs).length + bs - 1) / bs = (msgs.length - 1) / bs := by
    rw [List.length_drop]
    rcases Nat.lt_or_ge msgs.length bs with hlt | hge
    · have e1 : msgs.length - bs = 0 := by omega
      rw [e1, Nat.div_eq_of_lt (by omega), Nat.div_eq_of_lt (by omega)]
    · congr 1
      omega
  unfold batches
  rw [h1, h3, List.range'_succ, List.map_cons, List.drop_zero]
  congr 1
  have h0 : (0 : Nat) + bs = bs := Nat.zero_add bs
  rw [← h0, map_range'_add]
  apply List.map_congr_left
  intro i _
  rw [List.drop_drop]
  congr 2
  omega

lemma batches_flatten_aux (n : Nat) :
    ∀ msgs : List String, ∀ bs : Nat, 0 < bs → msgs.length ≤ n →
      (batches msgs bs).flatten = msgs := by
  induction n with
  | zero =>
    intro msgs bs hbs hle
    have : msgs = [] := List.eq_nil_of_length_eq_zero (by omega)
    rw [this, batches_nil]
    rfl
  | succ n ih =>
    intro msgs bs hbs hle
    by_cases h : msgs = []
    · rw [h, batches_nil]; rfl
    · rw [batches_cons msgs bs hbs h, List.flatten_cons,
        ih (msgs.drop bs) bs hbs (by rw [List.length_drop]; omega)]
      exact List.take_append_drop bs msgs

lemma batches_full_aux (n : Nat) :
    ∀ msgs : List String, ∀ bs : Nat, 0 < bs → msgs.length ≤ n →
      ∀ k, k + 1 < (batches msgs bs).length → ((batches msgs bs).getD k []).length = bs := by
  induction n with
  | zero =>
    intro msgs bs hbs hle k hk
    have : msgs = [] := List.eq_nil_of_length_eq_zero (by omega)
    rw [this, batches_nil] at hk
    simp at hk
  | succ n ih =>
    intro msgs bs hbs hle k hk
    by_cases h : msgs = []
    · rw [h, batches_nil] at hk; simp at hk
    · rw [batches_cons msgs bs hbs h] at hk ⊢
      cases k with
      | zero =>
        by_cases hd : msgs.drop bs = []
        · rw [hd, batches_nil] at hk; simp at hk
        · have hlt : bs < msgs.length := by
            have := List.length_pos.mpr hd
            rw [List.length_drop] at this
            omega
          simp [List.length_take]
          omega
      | succ k =>
        rw [List.getD_cons_succ]
        exact ih (msgs.drop bs) bs hbs (by rw [List.length_drop]; omega) k
          (by simpa using hk)

/-- C2: partitioning into batches of 999. -/
theorem batching_spec (msgs : List String) :
    (batches msgs 999).length = (msgs.length + 998) / 999 ∧
    (∀ k, k + 1 < (batches msgs 999).length → ((batches msgs 999).getD k []).length = 999) ∧
    (∀ b ∈ batches msgs 999, b.length ≤ 999) ∧
    (batches msgs 999).flatten = msgs := by
  refine ⟨?_, ?_, ?_, ?_⟩
  · simp [batches]
  · exact batches_full_aux msgs.length msgs 999 (by omega) (Nat.le_refl _)
  · intro b hb
    rcases List.mem_map.mp hb with ⟨i, _, rfl⟩
    simp [List.length_take]
  · exact batches_flatten_aux msgs.length msgs 999 (by omega) (Nat.le_refl _)

/-! ## Effect model of `authenticate_gmail`, `delete_messages_by_filters` and `main`

The script's interactions with the outside world are reduced to an event
trace.  `World` records the external facts the script branches on:
whether the token file exists and what state the cached credential is in
(lines 16–21), whether the credentials file exists (line 23), the string
the user types at the confirmation prompt (line 155), and the listing
result returned by the provider (lines 79–80). -/

/-- One observable action of the script. -/
inductive Event where
  /-- line 21: `creds.refresh(Request())` — network token refresh. -/
  | refreshCall : Event
  /-- line 24: the "credentials file not found" error message. -/
  | credsNotFoundMsg : Event
  /-- lines 26–27: interactive browser consent flow. -/
  | consentFlow : Event
  /-- lines 29–30: the token file is written (created or overwritten). -/
  | tokenWrite : Event
  /-- lines 110–120: the warning banner. -/
  | warningShown : Event
  /-- line 155: the confirmation prompt is shown. -/
  | confirmPrompt : Event
  /-- line 79: `users().messages().list(...)` with the built query. -/
  | listCall : String → Event
  /-- line 83: the "No messages found" report. -/
  | reportNoMessages : Event
  /-- line 93: `users().messages().batchDelete(...)` with one batch of ids. -/
  | deleteCall : List String → Event
  deriving DecidableEq, Repr

/-- Process outcome: `exited c` models `sys.exit(c)` (or argparse's usage
error), `completed` models `main` returning normally (process exit 0). -/
inductive Outcome where
  | exited : Nat → Outcome
  | completed : Outcome
  deriving DecidableEq, Repr

/-- External state consulted by one invocation. -/
structure World where
  /-- line 16: `os.path.exists(token_path)`. -/
  tokenExists : Bool
  /-- line 19: `creds.valid` for the loaded cached credential. -/
  cachedValid : Bool
  /-- line 20: `creds.expired`. -/
  cachedExpired : Bool
  /-- line 20: `creds.refresh_token` is truthy. -/
  hasRefreshToken : Bool
  /-- line 23: `os.path.exists(credfile)`. -/
  credfileExists : Bool
  /-- line 155: what the user types at the prompt. -/
  confirmInput : String
  /-- lines 79–80: the message ids returned by the listing call. -/
  listing : List String
  deriving DecidableEq, Repr

/-- Parsed CLI arguments (lines 127–144).  argparse restricts `--month`
to 1–12 when present; `--credfile` and `--location` are required. -/
structure Args where
  year : Option Nat
  month : Option Nat
  credfile : String
  location : String
  sender : Option String
  force : Bool
  deriving DecidableEq, Repr

/-- Lines 12–32: event trace of `authenticate_gmail` plus a success flag
(`false` means the script printed the error and called `sys.exit(1)`).

`creds` is non-`None` iff the token file exists; the credential is used
as-is when valid; refreshed when expired with a refresh token; otherwise
the consent flow runs, but only if the credentials file exists.  Every
path through the `if not creds or not creds.valid` block ends by writing
the token file. -/
def authenticate_gmail (w : World) : List Event × Bool :=
  if !w.tokenExists || !w.cachedValid then
    if w.tokenExists && w.cachedExpired && w.hasRefreshToken then
      ([Event.refreshCall, Event.tokenWrite], true)
    else if !w.credfileExists then
      ([Event.credsNotFoundMsg], false)
    else
      ([Event.consentFlow, Event.tokenWrite], true)
  else
    ([], true)

/-- Lines 79–93: event trace of the listing/deletion stage, given the
built query and the listing result.  One `listCall`; if the listing is
empty, only the "No messages found" report; otherwise one `deleteCall`
per 999-element batch, in order. -/
def delete_messages_by_filters (q : String) (listing : List String) : List Event :=
  Event.listCall q ::
    (if listing.isEmpty then [Event.reportNoMessages]
     else (batches listing batch_size).map Event.deleteCall)

/-- Number of messages actually deleted by the stage: none when the
listing is empty (early return at line 84), otherwise all listed
messages (lines 89–95 report `len(messages)`). -/
def executorDeletedCount (listing : List String) : Nat :=
  if listing.isEmpty then 0 else listing.length

/-- Lines 123–163: event trace and outcome of `main`.

`parser.error` (line 148) prints a usage message and exits with argparse's
status code 2 before anything else runs.  Then authentication (line 150),
then the warning banner; without `--force` the confirmation prompt is
shown and any input other than `"DELETE"` returns early (process exit 0);
otherwise the deletion stage runs with the built query. -/
def mainModel (args : Args) (w : World) : List Event × Outcome :=
  if pyTruthy args.month && !pyTruthy args.year then
    ([], Outcome.exited 2)
  else if (authenticate_gmail w).2 = false then
    ((authenticate_gmail w).1, Outcome.exited 1)
  else
    let aev := (authenticate_gmail w).1
    let q := buildQuery args.year args.month args.location args.sender
    if args.force = false then
      if w.confirmInput = "DELETE" then
        (aev ++ [Event.warningShown, Event.confirmPrompt] ++ delete_messages_by_filters q w.listing,
         Outcome.completed)
      else
        (aev ++ [Event.warningShown, Event.confirmPrompt], Outcome.completed)
    else
      (aev ++ [Event.warningShown] ++ delete_messages_by_filters q w.listing,
       Outcome.completed)

/-! ## Control-flow lemmas -/

lemma auth_events_no_delete (w : World) (ids : List String) :
    Event.deleteCall ids ∉ (authenticate_gmail w).1 := by
  rcases w with ⟨te, cv, ce, hr, cf, ci, ls⟩
  cases te <;> cases cv <;> cases ce <;> cases hr <;> cases cf <;>
    simp [authenticate_gmail]

/-! ## Claim theorems on the control flow -/

/-- C3: a location equal to "inbox" after lowercasing yields the
inbox-scope clause `in:inbox`; any other location yields a label clause
carrying the string verbatim. -/
theorem location_clause_spec (loc : String) :
    (strLower loc = "inbox" → locationClause loc = "in:inbox") ∧
    (strLower loc ≠ "inbox" → locationClause loc = "label:" ++ loc) := by
  constructor <;> intro h <;> simp [locationClause, h]

/-- C7: a year without a month yields the whole-year time clause pair;
no year and no month yields no time clause. -/
theorem year_time_clause (y : Nat) (hy : 1 ≤ y) :
    timeClauses (some y) none =
      ["after:" ++ toString y ++ "/01/01", "before:" ++ toString (y + 1) ++ "/01/01"] ∧
    timeClauses none none = [] := by
  constructor
  · have hty : pyTruthy (some y) = true := by simp [pyTruthy]; omega
    simp [timeClauses, hty, pyTruthy]
    omega
  · rfl

/-- C8: the query is the present clauses joined by single spaces in
the order time, location, sender; a non-empty sender yields a literal
`from:` clause. -/
theorem query_join_order (year month : Option Nat) (loc : String) (sender : Option String) :
    buildQuery year month loc sender =
      String.intercalate " "
        (timeClauses year month ++ [locationClause loc] ++ senderClauses sender) ∧
    (∀ s : String, s ≠ "" → senderClauses (some s) = ["from:" ++ s]) := by
  refine ⟨rfl, ?_⟩
  intro s hs
  simp [senderClauses, pyTruthyStr, hs]

/-- C4: with the force flag unset and any confirmation input other than
"DELETE", no delete call is ever issued. -/
theorem decline_confirmation_no_delete (args : Args) (w : World)
    (hf : args.force = false) (hc : w.confirmInput ≠ "DELETE") (ids : List String) :
    Event.deleteCall ids ∉ (mainModel args w).1 := by
  unfold mainModel
  by_cases hv : (pyTruthy args.month && !pyTruthy args.year) = true
  · simp [hv]
  · rw [if_neg (by simp [hv] : ¬(pyTruthy args.month && !pyTruthy args.year) = true)]
    by_cases ha : (authenticate_gmail w).2 = false
    · rw [if_pos ha]
      exact auth_events_no_delete w ids
    · rw [if_neg ha]
      simp only [hf, if_pos, if_neg hc]
      simp [auth_events_no_delete w ids]

/-- C5 (amended): a truthy month with a falsy year is rejected up front:
no events at all (no authentication, listing or deletion), and the
process exits with argparse's usage-error status 2. -/
theorem month_without_year_rejected (args : Args) (w : World)
    (hm : pyTruthy args.month = true) (hy : pyTruthy args.year = false) :
    (mainModel args w).1 = [] ∧ (mainModel args w).2 = Outcome.exited 2 := by
  unfold mainModel
  rw [if_pos (by simp [hm, hy])]
  exact ⟨rfl, rfl⟩

/-- C5 counterexample: on `--month 5` with no `--year`, the process
exits with status 2 (argparse's `parser.error`), not with status 1 as
claimed. -/
theorem month_without_year_exit_code_cex :
    (mainModel ⟨none, some 5, "creds.json", "inbox", none, false⟩
        ⟨false, false, false, false, false, "", []⟩).2 = Outcome.exited 2 ∧
    Outcome.exited 2 ≠ Outcome.exited 1 := by
  constructor
  · rfl
  · decide

/-- C6: an empty listing produces exactly one list call and the
"no messages" report — zero delete calls — and a deleted count of 0. -/
theorem empty_listing_no_delete (q : String) (listing : List String) (h : listing = []) :
    delete_messages_by_filters q listing = [Event.listCall q, Event.reportNoMessages] ∧
    executorDeletedCount listing = 0 ∧
    (∀ ids, Event.deleteCall ids ∉ delete_messages_by_filters q listing) := by
  subst h
  refine ⟨rfl, rfl, ?_⟩
  intro ids
  simp [delete_messages_by_filters]

/-- C9: with no usable cached credential, no refresh path, and a missing
credentials file, authentication prints the error and fails; `main` then
exits with status 1 having emitted no consent flow and no mail API call. -/
theorem missing_credentials_fatal (w : World)
    (h1 : ¬(w.tokenExists = true ∧ w.cachedValid = true))
    (h2 : ¬(w.tokenExists = true ∧ w.cachedExpired = true ∧ w.hasRefreshToken = true))
    (h3 : w.credfileExists = false) :
    authenticate_gmail w = ([Event.credsNotFoundMsg], false) ∧
    (∀ args : Args, (pyTruthy args.month && !pyTruthy args.year) = false →
      (mainModel args w).1 = [Event.credsNotFoundMsg] ∧
      (mainModel args w).2 = Outcome.exited 1) := by
  have hA : authenticate_gmail w = ([Event.credsNotFoundMsg], false) := by
    rcases w with ⟨te, cv, ce, hr, cf, ci, ls⟩
    cases te <;> cases cv <;> cases ce <;> cases hr <;> simp_all [authenticate_gmail]
  refine ⟨hA, ?_⟩
  intro args hv
  unfold mainModel
  rw [if_neg (by simp [hv]), if_pos (by rw [hA]), hA]
  exact ⟨rfl, rfl⟩

/-- C10: with valid flags and a successful authentication that had to
obtain a fresh or refreshed credential, the trace is exactly the
authentication events (which include the token-file write) followed by
the warning and the confirmation prompt; declining still ends normally,
so the token write happened even though nothing was deleted. -/
theorem auth_before_confirmation (args : Args) (w : World)
    (hv : (pyTruthy args.month && !pyTruthy args.year) = false)
    (hfresh : ¬(w.tokenExists = true ∧ w.cachedValid = true))
    (hok : (w.tokenExists = true ∧ w.cachedExpired = true ∧ w.hasRefreshToken = true) ∨
      w.credfileExists = true)
    (hf : args.force = false) (hc : w.confirmInput ≠ "DELETE") :
    (mainModel args w).1 =
      (authenticate_gmail w).1 ++ [Event.warningShown, Event.confirmPrompt] ∧
    Event.tokenWrite ∈ (authenticate_gmail w).1 ∧
    (mainModel args w).2 = Outcome.completed := by
  have hauth : (authenticate_gmail w).2 = true ∧ Event.tokenWrite ∈ (authenticate_gmail w).1 := by
    rcases w with ⟨te, cv, ce, hr, cf, ci, ls⟩
    cases te <;> cases cv <;> cases ce <;> cases hr <;> cases cf <;>
      simp_all [authenticate_gmail]
  have hmain : mainModel args w =
      ((authenticate_gmail w).1 ++ [Event.warningShown, Event.confirmPrompt],
        Outcome.completed) := by
    unfold mainModel
    rw [if_neg (by simp [hv]), if_neg (by simp [hauth.1])]
    simp only [hf, if_pos, if_neg hc]
  exact ⟨by rw [hmain], hauth.2, by rw [hmain]⟩

/-! ## Concrete instantiations -/

/-- C1 at year 2024, month 12: the December → January rollover. -/
theorem month_time_clause_witness :
    timeClauses (some 2024) (some 12) = ["after:2024/12/01", "before:2025/01/01"] := by
  rw [month_time_clause 2024 12 (by norm_num) (by norm_num) (by norm_num)]
  rfl

/-- C2 at a 1000-element listing: the first batch is full (999 ids) and
flattening the batches reproduces the listing. -/
theorem batching_spec_witness :
    ((batches (List.replicate 1000 "m") 999).getD 0 []).length = 999 ∧
    (batches (List.replicate 1000 "m") 999).flatten = List.replicate 1000 "m" := by
  refine ⟨(batching_spec (List.replicate 1000 "m")).2.1 0 ?_,
    (batching_spec (List.replicate 1000 "m")).2.2.2⟩
  rw [(batching_spec (List.replicate 1000 "m")).1]
  simp only [List.length_replicate]
  decide

/-- C3 at "INBOX" and "Promotions". -/
theorem location_clause_spec_witness :
    locationClause "INBOX" = "in:inbox" ∧
    locationClause "Promotions" = "label:" ++ "Promotions" :=
  ⟨(location_clause_spec "INBOX").1 (by decide),
   (location_clause_spec "Promotions").2 (by decide)⟩

/-- C4 at a concrete invocation where the user types "no". -/
theorem decline_confirmation_no_delete_witness :
    Event.deleteCall ["id1"] ∉
      (mainModel ⟨some 2024, none, "creds.json", "inbox", none, false⟩
        ⟨true, true, false, false, true, "no", ["id1"]⟩).1 :=
  decline_confirmation_no_delete _ _ rfl (by decide) ["id1"]

/-- C5 (amended) at `--month 5` with no `--year`. -/
theorem month_without_year_rejected_witness :
    (mainModel ⟨none, some 5, "creds.json", "inbox", none, false⟩
        ⟨false, false, false, false, false, "", []⟩).1 = [] :=
  (month_without_year_rejected _ _ (by decide) (by decide)).1

/-- C6 at an empty listing for the inbox query. -/
theorem empty_listing_no_delete_witness :
    delete_messages_by_filters "in:inbox" [] =
      [Event.listCall "in:inbox", Event.reportNoMessages] :=
  (empty_listing_no_delete "in:inbox" [] rfl).1

/-- C7 at year 2024. -/
theorem year_time_clause_witness :
    timeClauses (some 2024) none = ["after:2024/01/01", "before:2025/01/01"] := by
  rw [(year_time_clause 2024 (by norm_num)).1]
  rfl

/-- C8 at a concrete sender. -/
theorem query_join_order_witness :
    senderClauses (some "newsletter@example.com") = ["from:" ++ "newsletter@example.com"] :=
  (query_join_order none none "inbox" (some "newsletter@example.com")).2
    "newsletter@example.com" (by decide)

/-- C9 at a world with no token file and no credentials file. -/
theorem missing_credentials_fatal_witness :
    authenticate_gmail ⟨false, false, false, false, false, "", []⟩ =
      ([Event.credsNotFoundMsg], false) :=
  (missing_credentials_fatal _ (by decide) (by decide) rfl).1

/-- C10 at a world whose cached credential is expired but refreshable:
the refresh path writes the token file even though the user declines. -/
theorem auth_before_confirmation_witness :
    Event.tokenWrite ∈ (authenticate_gmail ⟨true, false, true, true, true, "n", []⟩).1 :=
  (auth_before_confirmation ⟨some 2024, none, "c.json", "inbox", none, false⟩
      ⟨true, false, true, true, true, "n", []⟩ (by decide) (by decide)
      (Or.inl (by decide)) rfl (by decide)).2.1
